import Mathlib

/-!
Shallow embedding of the TrackSwift logistics application
(`src/TrackSwift.py`, `src/App_utils.py`).

The SQLite store is modelled as a `DB` record holding the three tables
(`users`, `shipments`, `orders`) as lists of typed rows together with the
AUTOINCREMENT counters.  SQL statements become pure functions over `DB`:
an `INSERT` that would violate a `UNIQUE` constraint is modelled as the
`sqlite3.IntegrityError` path of the source (an `Option`/error result),
`SELECT ... fetchone` becomes `List.find?`, a `LEFT JOIN` becomes an
explicit join over the two lists, and `UPDATE ... WHERE` becomes a `map`.
Streamlit page bodies (Add Shipment, Track Shipment, View Orders,
Dashboard) are embedded as functions from the store and the widget inputs
to an outcome value plus the resulting store; `commit`/`rollback` are
modelled by returning either the new or the original store.
-/

namespace TrackSwift

/-- A row of the `users` table (`App_utils.py` lines 40-46). -/
structure UserRow where
  id : Nat
  username : String
  password : String
  deriving DecidableEq

/-- A row of the `shipments` table (`App_utils.py` lines 49-61).
`created_date` (a `DATETIME`) is modelled as a day count. -/
structure ShipmentRow where
  id : Nat
  user_id : Nat
  sender_name : String
  receiver_name : String
  origin : String
  destination : String
  status : String
  tracking_id : String
  created_date : Nat
  deriving DecidableEq

/-- A row of the `orders` table (`App_utils.py` lines 64-72).
`total_cost` (a `REAL`) is modelled as a rational number. -/
structure OrderRow where
  id : Nat
  shipment_id : Nat
  items : String
  quantity : Nat
  total_cost : Rat
  deriving DecidableEq

/-- The persistent store: the three tables plus their AUTOINCREMENT
counters (`sqlite_sequence` state). -/
structure DB where
  nextUserId : Nat
  nextShipmentId : Nat
  nextOrderId : Nat
  users : List UserRow
  shipments : List ShipmentRow
  orders : List OrderRow
  deriving DecidableEq

/-! ## Tracking-id generation

`TrackSwift.py` line 192 and `App_utils.py` line 133:
`str(uuid.uuid4()).replace('-', '')[:8].upper()`.
The random `uuid.uuid4()` value is an oracle: its string form is passed
in as an argument.  A uuid4 string consists of lowercase hexadecimal
digits and dashes; after removing the dashes, 32 hex digits remain. -/

/-- The sixteen characters that can occur in `str(uuid.uuid4())` besides
the dashes: the decimal digits and the lowercase letters up to `f`. -/
def hexLower : List Char :=
  (List.range 16).map Nat.digitChar

/-- The characters an uppercased hex digit can be. -/
def hexUpper : List Char :=
  (List.range 16).map (fun n => (Nat.digitChar n).toUpper)

/-- `u.replace('-', '')` on the uuid string. -/
def stripDashes (u : String) : List Char :=
  u.toList.filter (fun c => c != '-')

/-- `str(uuid.uuid4()).replace('-', '')[:8].upper()`. -/
def genTrackingId (u : String) : String :=
  String.mk (((stripDashes u).take 8).map Char.toUpper)

/-- The shape of `str(uuid.uuid4())` that matters here: stripping the
dashes leaves 32 characters, each a lowercase hex digit. -/
def uuidShaped (u : String) : Prop :=
  (stripDashes u).length = 32 ∧ ∀ c ∈ stripDashes u, c ∈ hexLower

instance (u : String) : Decidable (uuidShaped u) := by
  unfold uuidShaped; infer_instance

/-! ## Table-level queries and inserts -/

/-- `SELECT ... FROM users WHERE username = ?` yields a row iff this is
true (the `UNIQUE` check on `users.username`). -/
def userExists (us : List UserRow) (uname : String) : Bool :=
  us.any (fun u => u.username == uname)

/-- `SELECT id FROM users WHERE username = ?` + `fetchone`
(`App_utils.py` lines 93-99). -/
def findUserId (us : List UserRow) (uname : String) : Option Nat :=
  (us.find? (fun u => u.username == uname)).map (fun u => u.id)

/-- `INSERT OR IGNORE INTO users (username, password) VALUES (?, ?)`
(`App_utils.py` line 85): on a username conflict the insert is ignored. -/
def insertOrIgnoreUser (db : DB) (uname pwd : String) : DB :=
  if userExists db.users uname then db
  else { db with
           users := db.users ++ [⟨db.nextUserId, uname, pwd⟩],
           nextUserId := db.nextUserId + 1 }

/-- The `UNIQUE` check on `shipments.tracking_id`. -/
def trackingExists (ss : List ShipmentRow) (tid : String) : Bool :=
  ss.any (fun s => s.tracking_id == tid)

/-- `INSERT INTO shipments (...) VALUES (...)` (`TrackSwift.py` lines
196-201, `App_utils.py` lines 134-139): `none` is the
`sqlite3.IntegrityError` raised when `tracking_id` violates its `UNIQUE`
constraint; on success the new row and `c.lastrowid` are produced. -/
def insertShipment (db : DB) (uid : Nat)
    (sender receiver origin dest status tid : String) (created : Nat) :
    Option (DB × Nat) :=
  if trackingExists db.shipments tid then none
  else
    let sid := db.nextShipmentId
    some ({ db with
              nextShipmentId := sid + 1,
              shipments := db.shipments ++
                [⟨sid, uid, sender, receiver, origin, dest, status, tid, created⟩] },
          sid)

/-- `INSERT INTO orders (shipment_id, items, quantity, total_cost)`
(`TrackSwift.py` lines 205-208, `App_utils.py` lines 144-147): the
`orders` table has no `UNIQUE` constraint, so the insert always succeeds. -/
def insertOrder (db : DB) (sid : Nat) (items : String) (qty : Nat) (cost : Rat) : DB :=
  { db with
      nextOrderId := db.nextOrderId + 1,
      orders := db.orders ++ [⟨db.nextOrderId, sid, items, qty, cost⟩] }

/-! ## Add Shipment page (`TrackSwift.py` lines 165-219) -/

/-- Outcome of the Add Shipment form: the success banner with the
tracking id, the "fill in all required fields" error, or the
`except`-branch error followed by `conn.rollback()`. -/
inductive AddResult
  | ok (tid : String)
  | missingFields
  | storageError
  deriving DecidableEq

/-- The Add Shipment flow (`TrackSwift.py` lines 187-219).
`uuidStr` is the `uuid.uuid4()` oracle, `created` the `datetime.now()`
oracle.  `orderInsertFails` is an oracle for a storage-layer exception
raised by the order `INSERT` (the step between the shipment insert and
`conn.commit()`); when any exception is raised before the commit, the
`except` branch runs `conn.rollback()` and the store is left as it was. -/
def addShipment (db : DB) (sessionUserId : Nat)
    (sender receiver origin dest status : String) (uuidStr : String)
    (created : Nat) (items : String) (qty : Nat) (cost : Rat)
    (orderInsertFails : Bool) : AddResult × DB :=
  if sender = "" ∨ receiver = "" ∨ origin = "" ∨ dest = "" ∨ items = "" then
    (.missingFields, db)
  else
    let tid := genTrackingId uuidStr
    match insertShipment db sessionUserId sender receiver origin dest status tid created with
    | none => (.storageError, db)
    | some (db1, sid) =>
        if orderInsertFails then (.storageError, db)
        else (.ok tid, insertOrder db1 sid items qty cost)

/-! ## Track Shipment page (`TrackSwift.py` lines 221-273) -/

/-- `SELECT s.*, o.items, o.quantity, o.total_cost FROM shipments s LEFT
JOIN orders o ON s.id = o.shipment_id WHERE s.tracking_id = ?` +
`fetchone` (`TrackSwift.py` lines 234-241): the first shipment row
matching the tracking id, joined with its first order if any. -/
def find_by_tracking_id (db : DB) (tid : String) :
    Option (ShipmentRow × Option OrderRow) :=
  match db.shipments.find? (fun s => s.tracking_id == tid) with
  | none => none
  | some s => some (s, db.orders.find? (fun o => o.shipment_id == s.id))

/-- Outcome of the status-update flow: the success banner, the
"No change needed" info message, or the "Shipment not found" error. -/
inductive UpdateResult
  | updated
  | noChange
  | notFound
  deriving DecidableEq

/-- The row transformation of `UPDATE shipments SET status = ? WHERE
tracking_id = ?`. -/
def setStatusRow (tid newStatus : String) (r : ShipmentRow) : ShipmentRow :=
  if r.tracking_id == tid then { r with status := newStatus } else r

/-- The status-update flow of the Track Shipment page (`TrackSwift.py`
lines 241-271): the shipment is first looked up by tracking id; a miss
reports "Shipment not found"; on a hit, the `UPDATE` + `conn.commit()`
run only when the selected status differs from the current one
(line 260), otherwise "No change needed" is reported. -/
def update_status (db : DB) (tid newStatus : String) : UpdateResult × DB :=
  match db.shipments.find? (fun s => s.tracking_id == tid) with
  | none => (.notFound, db)
  | some s =>
      if newStatus = s.status then (.noChange, db)
      else (.updated, { db with shipments := db.shipments.map (setStatusRow tid newStatus) })

/-! ## Login (`App_utils.py` lines 180-222) -/

/-- Outcome of `handle_login`: the success branch with the session
fields it sets (`logged_in`, `username`, `user_id`, `is_admin`), the
"Invalid credentials." error, or the "Enter username and password."
error for an empty field. -/
inductive LoginResult
  | success (userId : Nat) (username : String) (is_admin : Bool)
  | invalid
  | emptyInput
  deriving DecidableEq

/-- `handle_login` (`App_utils.py` lines 190-214): on a non-empty
username and password, `SELECT id, username FROM users WHERE username =
? AND password = ?` with the password hashed; a hit sets the session,
including `is_admin = (username == 'admin')` (line 209); a miss reports
"Invalid credentials.".  `hash` abstracts `hash_password` (SHA-256).
The flow only reads the store, so the store is returned unchanged. -/
def handle_login (hash : String → String) (db : DB) (uname pwd : String) :
    LoginResult × DB :=
  if uname = "" ∨ pwd = "" then (.emptyInput, db)
  else
    match db.users.find? (fun v => v.username == uname && v.password == hash pwd) with
    | some v => (.success v.id v.username (uname == "admin"), db)
    | none => (.invalid, db)

/-- A sequence of login attempts (username/password pairs) run against
the store, keeping only the store they leave behind. -/
def runLogins (hash : String → String) (db : DB) (attempts : List (String × String)) : DB :=
  attempts.foldl (fun d a => (handle_login hash d a.1 a.2).2) db

/-- The role the code associates with an account: `is_admin` is computed
from the (immutable) username, `username == 'admin'`
(`App_utils.py` line 209). -/
def accountRole (u : UserRow) : Bool :=
  u.username == "admin"

/-! ## Joined reads (`App_utils.py` lines 231-263) -/

/-- `FROM shipments s LEFT JOIN orders o ON s.id = o.shipment_id` over a
given list of shipment rows: a shipment without orders still appears,
with the order fields NULL. -/
def leftJoinOrders (db : DB) (ss : List ShipmentRow) :
    List (ShipmentRow × Option OrderRow) :=
  ss.flatMap (fun s =>
    let os := db.orders.filter (fun o => o.shipment_id == s.id)
    if os.isEmpty then [(s, none)] else os.map (fun o => (s, some o)))

/-- `get_user_shipments_df` (`App_utils.py` lines 231-244): the left
join restricted to `WHERE s.user_id = ?`. -/
def get_user_shipments_df (db : DB) (uid : Nat) :
    List (ShipmentRow × Option OrderRow) :=
  leftJoinOrders db (db.shipments.filter (fun s => s.user_id == uid))

/-- `get_all_shipments_df(conn, include_orders=True)` (`App_utils.py`
lines 247-263): the left join over all shipments. -/
def get_all_shipments_joined (db : DB) : List (ShipmentRow × Option OrderRow) :=
  leftJoinOrders db db.shipments

/-! ## View Orders page (`TrackSwift.py` lines 275-331) -/

/-- The View Orders page (`TrackSwift.py` lines 286-318): all shipments
joined with orders, then the status filter, then the user filter.  An
admin session picks from `['All', 'Admin', 'User ']`, mapped through
`{'Admin': 1, 'User ': 2}` with the session's own id as default; a
non-admin session picks from `['All', username]` and a non-`'All'`
choice filters to the session's own `user_id`.  With `'All'` no user
filter is applied for either role. -/
def viewOrders (db : DB) (sessionUserId : Nat) (is_admin : Bool)
    (statusFilter userFilter : String) : List (ShipmentRow × Option OrderRow) :=
  let joined := get_all_shipments_joined db
  let f1 := if statusFilter == "All" then joined
            else joined.filter (fun r => r.1.status == statusFilter)
  if userFilter == "All" then f1
  else if is_admin then
    let uid := if userFilter == "Admin" then 1
               else if userFilter == "User " then 2
               else sessionUserId
    f1.filter (fun r => r.1.user_id == uid)
  else f1.filter (fun r => r.1.user_id == sessionUserId)

/-! ## Dashboard page (`TrackSwift.py` lines 67-163) -/

/-- `get_all_shipments_df(conn)` without orders (`App_utils.py` line
259): `SELECT * FROM shipments`. -/
def get_all_shipments (db : DB) : List ShipmentRow :=
  db.shipments

/-- `len(df_shipments[df_shipments['status'] == s])` for a status `s`. -/
def countStatus (db : DB) (s : String) : Nat :=
  (get_all_shipments db).countP (fun r => r.status == s)

/-- What the Dashboard page renders: the four metric widgets, the
"No shipments data available" info message, or the `except`-branch
"Dashboard error" message. -/
inductive DashboardView
  | metrics (total pending inTransit delivered : Nat)
  | noData
  | errorView
  deriving DecidableEq

/-- The Dashboard page (`TrackSwift.py` lines 76-163): when the
shipments frame is non-empty it renders total/Pending/In Transit/
Delivered counts; when it is empty it renders the info message (line
161) and computes no aggregates.  The pure counting never raises, so
the `except` branch (`errorView`) is unreachable in the model. -/
def dashboard (db : DB) : DashboardView :=
  let rows := get_all_shipments db
  if rows.isEmpty then .noData
  else .metrics rows.length (countStatus db "Pending")
         (countStatus db "In Transit") (countStatus db "Delivered")

/-! ## `init_db` (`App_utils.py` lines 30-177) -/

/-- One tuple of `sample_data` (`App_utils.py` lines 111-122):
user id, sender, receiver, origin, destination, status, created date. -/
abbrev SampleRow := Nat × String × String × String × String × String × Nat

/-- `sample_data` (`App_utils.py` lines 111-122); `datetime.now() -
timedelta(days=k)` is modelled as `now - k`. -/
def sample_data (adminId userId now : Nat) : List SampleRow :=
  [(adminId, "John Doe", "Jane Smith", "New York", "Los Angeles", "Pending", now - 5),
   (adminId, "Alice Johnson", "Bob Wilson", "Chicago", "Miami", "In Transit", now - 3),
   (adminId, "Charlie Brown", "Diana Prince", "Seattle", "Boston", "Delivered", now - 1),
   (adminId, "Eve Davis", "Frank Miller", "Denver", "Atlanta", "Pending", now),
   (adminId, "Grace Lee", "Henry Taylor", "Phoenix", "Detroit", "In Transit", now - 2),
   (userId, "User  Sender1", "User  Receiver1", "Dallas", "Portland", "Delivered", now - 4),
   (userId, "User  Sender2", "User  Receiver2", "Austin", "Nashville", "Pending", now - 6),
   (userId, "User  Sender3", "User  Receiver3", "Houston", "Memphis", "In Transit", now)]

/-- `sample_orders` (`App_utils.py` lines 124-128). -/
def sample_orders : List (String × Nat × Rat) :=
  [("Electronics", 5, 500), ("Clothing", 10, 200), ("Books", 20, 100),
   ("Furniture", 2, 800), ("Groceries", 50, 150), ("Tools", 3, 300),
   ("Toys", 15, 75), ("Appliances", 1, 1000)]

/-- The seed loop (`App_utils.py` lines 130-153): for each sample row a
tracking id is generated from the uuid oracle `g i`, the shipment and
its order (`sample_orders[i % len(sample_orders)]`) are inserted, and a
`sqlite3.IntegrityError` on the shipment insert skips that row and
continues with the next (`pass` at line 150). -/
def seedLoop (g : Nat → String) : DB → List SampleRow → Nat → DB
  | db, [], _ => db
  | db, (uid, sender, receiver, origin, dest, status, created) :: rest, i =>
      let tid := genTrackingId (g i)
      match insertShipment db uid sender receiver origin dest status tid created with
      | none => seedLoop g db rest (i + 1)
      | some (db1, sid) =>
          let t := sample_orders.getD (i % sample_orders.length) ("", 0, 0)
          seedLoop g (insertOrder db1 sid t.1 t.2.1 t.2.2) rest (i + 1)

/-- The second half of `init_db` (`App_utils.py` lines 92-159): look up
the two default user ids and, mirroring the Python truthiness test
`if not admin_id or not user_id` (line 101), abort when an id is missing
or equal to `0`; otherwise seed the sample shipments and orders, but
only when `SELECT COUNT(*) FROM shipments` returns zero (line 109). -/
def seedIfEmpty (g : Nat → String) (now : Nat) (db2 : DB) : DB :=
  match findUserId db2.users "admin", findUserId db2.users "user" with
  | some adminId, some userId =>
      if adminId = 0 ∨ userId = 0 then db2
      else if db2.shipments.length = 0 then
        seedLoop g db2 (sample_data adminId userId now) 0
      else db2
  | _, _ => db2

/-- `init_db` (`App_utils.py` lines 30-159), with table creation already
reflected in the `DB` type: the two default users are inserted with
`INSERT OR IGNORE`, then the sample data is seeded if the shipments
table is empty.  `hash` abstracts `hash_password`, `g` is the uuid
oracle and `now` the clock oracle. -/
def init_db (hash : String → String) (g : Nat → String) (now : Nat) (db : DB) : DB :=
  seedIfEmpty g now
    (insertOrIgnoreUser (insertOrIgnoreUser db "admin" (hash "admin")) "user" (hash "user"))

/-- The tracking-id uniqueness invariant the `UNIQUE` constraint on
`shipments.tracking_id` maintains. -/
def trackingUnique (ss : List ShipmentRow) : Prop :=
  ss.Pairwise (fun a b => a.tracking_id ≠ b.tracking_id)

instance (ss : List ShipmentRow) : Decidable (trackingUnique ss) := by
  unfold trackingUnique; infer_instance

/-! ## Concrete stores and uuid strings used to instantiate the theorems -/

def uuidC1 : String := "0a1b2c3d-4e5f-6071-8293-a4b5c6d7e8f9"

def dbC1 : DB :=
  ⟨3, 2, 2, [⟨1, "admin", "x"⟩, ⟨2, "user", "y"⟩],
   [⟨1, 1, "J", "K", "NYC", "LA", "Pending", "FFFF9999", 0⟩],
   [⟨1, 1, "Books", 1, 10⟩]⟩

def uuidC2 : String := "01234567-89ab-cdef-0123-456789abcdef"

def dbC2 : DB :=
  ⟨3, 2, 1, [⟨1, "admin", "x"⟩],
   [⟨1, 1, "S", "R", "O", "D", "Pending", "AAAA0001", 0⟩], []⟩

def dbC3 : DB :=
  ⟨3, 1, 1, [⟨1, "admin", "admin"⟩, ⟨2, "alice", "pw123"⟩], [], []⟩

def uuidC4 : String := "aaaaaaaa-bbbb-cccc-dddd-eeeeeeeeeeee"

def dbC4 : DB :=
  ⟨3, 2, 1, [⟨1, "admin", "x"⟩],
   [⟨1, 1, "S", "R", "O", "D", "Pending", "AAAAAAAA", 0⟩], []⟩

def dbC5 : DB :=
  ⟨3, 3, 1, [⟨1, "admin", "x"⟩, ⟨2, "user", "y"⟩],
   [⟨1, 1, "A", "B", "NYC", "LA", "Pending", "AAAA1111", 0⟩,
    ⟨2, 2, "C", "D", "SF", "CHI", "Pending", "BBBB2222", 0⟩], []⟩

def dbC6 : DB :=
  ⟨3, 2, 2, [⟨1, "admin", "x"⟩],
   [⟨1, 1, "A", "B", "NYC", "LA", "Pending", "TRACK001", 0⟩],
   [⟨1, 1, "Books", 2, 20⟩]⟩

def dbC7 : DB := ⟨1, 1, 1, [], [], []⟩

def dbC7col : DB :=
  ⟨3, 2, 1, [⟨1, "admin", "admin"⟩, ⟨2, "user", "user"⟩],
   [⟨1, 1, "S", "R", "O", "D", "Pending", "AAAAAAAA", 0⟩], []⟩

def dbC8 : DB :=
  ⟨3, 2, 2, [⟨1, "admin", "x"⟩],
   [⟨1, 1, "A", "B", "NYC", "LA", "Pending", "TRACK777", 0⟩],
   [⟨1, 1, "Toys", 1, 5⟩]⟩

def dbC9 : DB :=
  ⟨3, 1, 1, [⟨1, "admin", "x"⟩, ⟨2, "user", "y"⟩], [], []⟩

/-! ## Helper lemmas -/

lemma handle_login_state (hash : String → String) (db : DB) (uname pwd : String) :
    (handle_login hash db uname pwd).2 = db := by
  unfold handle_login
  split
  · rfl
  · cases db.users.find? (fun v => v.username == uname && v.password == hash pwd) <;> rfl

lemma runLogins_eq (hash : String → String) (db : DB) (attempts : List (String × String)) :
    runLogins hash db attempts = db := by
  induction attempts generalizing db with
  | nil => rfl
  | cons a t ih =>
      show runLogins hash (handle_login hash db a.1 a.2).2 t = db
      rw [handle_login_state]
      exact ih db

lemma find?_user_hit (us : List UserRow) (u : UserRow) (pwd : String)
    (hu : u ∈ us) (huniq : ∀ v ∈ us, v.username = u.username → v = u)
    (hps : pwd = u.password) :
    us.find? (fun v => v.username == u.username && v.password == pwd) = some u := by
  induction us with
  | nil => cases hu
  | cons x xs ih =>
      by_cases hx : (x.username == u.username && x.password == pwd) = true
      · rw [List.find?_cons, hx]
        have hxname : x.username = u.username := by
          have := (Bool.and_eq_true _ _).mp hx
          exact beq_iff_eq.mp this.1
        rw [huniq x (List.mem_cons_self x xs) hxname]
      · rw [List.find?_cons, Bool.eq_false_iff.mpr hx]
        rcases List.mem_cons.mp hu with hxu | hxs
        · exfalso
          apply hx
          rw [← hxu]
          simp [hps]
        · exact ih hxs (fun v hv => huniq v (List.mem_cons_of_mem _ hv))

lemma find?_user_miss (us : List UserRow) (u : UserRow) (pwd : String)
    (huniq : ∀ v ∈ us, v.username = u.username → v = u)
    (hps : pwd ≠ u.password) :
    us.find? (fun v => v.username == u.username && v.password == pwd) = none := by
  rw [List.find?_eq_none]
  intro v hv hmatch
  have h12 := (Bool.and_eq_true _ _).mp hmatch
  have h1 : v.username = u.username := beq_iff_eq.mp h12.1
  have h2 : v.password = pwd := beq_iff_eq.mp h12.2
  have hvu := huniq v hv h1
  rw [hvu] at h2
  exact hps h2.symm

lemma toUpper_hexLower_mem : ∀ c ∈ hexLower, Char.toUpper c ∈ hexUpper := by decide

lemma genTrackingId_length (u : String) (hu : uuidShaped u) :
    (genTrackingId u).length = 8 := by
  obtain ⟨hlen, _⟩ := hu
  show (((stripDashes u).take 8).map Char.toUpper).length = 8
  rw [List.length_map, List.length_take, hlen]
  decide

lemma genTrackingId_chars (u : String) (hu : uuidShaped u) :
    ∀ c ∈ (genTrackingId u).toList, c ∈ hexUpper := by
  obtain ⟨_, hall⟩ := hu
  intro c hc
  have hc' : c ∈ ((stripDashes u).take 8).map Char.toUpper := hc
  obtain ⟨d, hd, rfl⟩ := List.mem_map.mp hc'
  exact toUpper_hexLower_mem d (hall d (List.take_subset _ _ hd))

lemma setStatusRow_tracking (tid ns : String) (r : ShipmentRow) :
    (setStatusRow tid ns r).tracking_id = r.tracking_id := by
  unfold setStatusRow
  split <;> rfl

lemma trackingUnique_append (ss : List ShipmentRow) (r : ShipmentRow)
    (h : trackingUnique ss) (hex : ¬trackingExists ss r.tracking_id = true) :
    trackingUnique (ss ++ [r]) := by
  unfold trackingUnique at h ⊢
  rw [List.pairwise_append]
  refine ⟨h, List.pairwise_singleton _ _, ?_⟩
  intro a ha b hb
  rw [List.mem_singleton] at hb
  subst hb
  intro heq
  exact hex (List.any_eq_true.mpr ⟨a, ha, by simp [heq]⟩)

lemma trackingUnique_map_setStatus (ss : List ShipmentRow) (tid ns : String)
    (h : trackingUnique ss) : trackingUnique (ss.map (setStatusRow tid ns)) := by
  unfold trackingUnique at h ⊢
  rw [List.pairwise_map]
  apply h.imp
  intro a b hab
  rw [setStatusRow_tracking, setStatusRow_tracking]
  exact hab

lemma insertShipment_none (db : DB) (uid : Nat)
    (sender receiver origin dest status tid : String) (created : Nat)
    (hex : trackingExists db.shipments tid = true) :
    insertShipment db uid sender receiver origin dest status tid created = none := by
  unfold insertShipment
  rw [if_pos hex]

lemma insertShipment_some (db : DB) (uid : Nat)
    (sender receiver origin dest status tid : String) (created : Nat)
    (hex : ¬trackingExists db.shipments tid = true) :
    insertShipment db uid sender receiver origin dest status tid created =
      some ({ db with
                nextShipmentId := db.nextShipmentId + 1,
                shipments := db.shipments ++
                  [⟨db.nextShipmentId, uid, sender, receiver, origin, dest, status, tid, created⟩] },
            db.nextShipmentId) := by
  unfold insertShipment
  rw [if_neg hex]

lemma insertOrder_shipments (db : DB) (sid : Nat) (items : String) (qty : Nat) (cost : Rat) :
    (insertOrder db sid items qty cost).shipments = db.shipments := rfl

lemma insertOrder_users (db : DB) (sid : Nat) (items : String) (qty : Nat) (cost : Rat) :
    (insertOrder db sid items qty cost).users = db.users := rfl

lemma seedLoop_users (g : Nat → String) (rows : List SampleRow) :
    ∀ (db : DB) (i : Nat), (seedLoop g db rows i).users = db.users := by
  induction rows with
  | nil => intro db i; rfl
  | cons r rest ih =>
      intro db i
      obtain ⟨uid, sender, receiver, origin, dest, status, created⟩ := r
      rw [seedLoop]
      by_cases hex : trackingExists db.shipments (genTrackingId (g i)) = true
      · rw [insertShipment_none db uid sender receiver origin dest status _ created hex]
        exact ih db (i + 1)
      · rw [insertShipment_some db uid sender receiver origin dest status _ created hex]
        rw [ih _ (i + 1)]
        rfl

lemma seedLoop_shipments_length (g : Nat → String) (rows : List SampleRow) :
    ∀ (db : DB) (i : Nat), db.shipments.length ≤ (seedLoop g db rows i).shipments.length := by
  induction rows with
  | nil => intro db i; exact Nat.le_refl _
  | cons r rest ih =>
      intro db i
      obtain ⟨uid, sender, receiver, origin, dest, status, created⟩ := r
      rw [seedLoop]
      by_cases hex : trackingExists db.shipments (genTrackingId (g i)) = true
      · rw [insertShipment_none db uid sender receiver origin dest status _ created hex]
        exact ih db (i + 1)
      · rw [insertShipment_some db uid sender receiver origin dest status _ created hex]
        refine Nat.le_trans ?_ (ih _ (i + 1))
        rw [insertOrder_shipments]
        simp

lemma seedLoop_unique (g : Nat → String) (rows : List SampleRow) :
    ∀ (db : DB) (i : Nat), trackingUnique db.shipments →
      trackingUnique (seedLoop g db rows i).shipments := by
  induction rows with
  | nil => intro db i h; exact h
  | cons r rest ih =>
      intro db i h
      obtain ⟨uid, sender, receiver, origin, dest, status, created⟩ := r
      rw [seedLoop]
      by_cases hex : trackingExists db.shipments (genTrackingId (g i)) = true
      · rw [insertShipment_none db uid sender receiver origin dest status _ created hex]
        exact ih db (i + 1) h
      · rw [insertShipment_some db uid sender receiver origin dest status _ created hex]
        apply ih _ (i + 1)
        rw [insertOrder_shipments]
        exact trackingUnique_append db.shipments _ h hex

lemma seedLoop_cons_length_pos (g : Nat → String) (db : DB) (r : SampleRow)
    (rest : List SampleRow) (i : Nat) (hdb : db.shipments = []) :
    0 < (seedLoop g db (r :: rest) i).shipments.length := by
  obtain ⟨uid, sender, receiver, origin, dest, status, created⟩ := r
  rw [seedLoop]
  have hex : ¬trackingExists db.shipments (genTrackingId (g i)) = true := by
    rw [hdb]
    simp [trackingExists]
  rw [insertShipment_some db uid sender receiver origin dest status _ created hex]
  refine Nat.lt_of_lt_of_le ?_ (seedLoop_shipments_length g rest _ (i + 1))
  rw [insertOrder_shipments, hdb]
  simp

lemma userExists_insertOrIgnoreUser_self (db : DB) (uname pwd : String) :
    userExists (insertOrIgnoreUser db uname pwd).users uname = true := by
  unfold insertOrIgnoreUser
  by_cases h : userExists db.users uname = true
  · rw [if_pos h]; exact h
  · rw [if_neg h]
    simp [userExists, List.any_append]

lemma userExists_insertOrIgnoreUser_mono (db : DB) (uname pwd v : String)
    (h : userExists db.users v = true) :
    userExists (insertOrIgnoreUser db uname pwd).users v = true := by
  unfold insertOrIgnoreUser
  by_cases h2 : userExists db.users uname = true
  · rw [if_pos h2]; exact h
  · rw [if_neg h2]
    simp only [userExists, List.any_append, Bool.or_eq_true]
    exact Or.inl h

lemma insertOrIgnoreUser_of_exists (db : DB) (uname pwd : String)
    (h : userExists db.users uname = true) :
    insertOrIgnoreUser db uname pwd = db := by
  unfold insertOrIgnoreUser
  rw [if_pos h]

lemma insertOrIgnoreUser_shipments (db : DB) (uname pwd : String) :
    (insertOrIgnoreUser db uname pwd).shipments = db.shipments := by
  unfold insertOrIgnoreUser
  split <;> rfl

/-- When both default users already exist, the two `INSERT OR IGNORE`
statements of `init_db` are no-ops and only the seed check remains. -/
lemma init_db_eval (hash : String → String) (g : Nat → String) (now : Nat) (D : DB)
    (hA : userExists D.users "admin" = true) (hU : userExists D.users "user" = true) :
    init_db hash g now D = seedIfEmpty g now D := by
  unfold init_db
  rw [insertOrIgnoreUser_of_exists D "admin" _ hA,
    insertOrIgnoreUser_of_exists D "user" _ hU]

lemma seedIfEmpty_users (g : Nat → String) (now : Nat) (db2 : DB) :
    (seedIfEmpty g now db2).users = db2.users := by
  unfold seedIfEmpty
  split
  · split
    · rfl
    · split
      · rw [seedLoop_users]
      · rfl
  · rfl

lemma seedIfEmpty_shipments_sub (g : Nat → String) (now : Nat) (db2 : DB) :
    db2.shipments.length ≤ (seedIfEmpty g now db2).shipments.length := by
  unfold seedIfEmpty
  split
  · split
    · exact Nat.le_refl _
    · split
      · exact seedLoop_shipments_length g _ db2 0
      · exact Nat.le_refl _
  · exact Nat.le_refl _

lemma seedIfEmpty_idem (g1 g2 : Nat → String) (n1 n2 : Nat) (db2 : DB) :
    seedIfEmpty g2 n2 (seedIfEmpty g1 n1 db2) = seedIfEmpty g1 n1 db2 := by
  set D := seedIfEmpty g1 n1 db2 with hD
  have hDu : D.users = db2.users := seedIfEmpty_users g1 n1 db2
  unfold seedIfEmpty
  rw [hDu]
  split
  · rename_i adminId userId heq1 heq2
    by_cases hz : adminId = 0 ∨ userId = 0
    · rw [if_pos hz]
    · rw [if_neg hz]
      have hrun1 : D = if adminId = 0 ∨ userId = 0 then db2
          else if db2.shipments.length = 0 then
            seedLoop g1 db2 (sample_data adminId userId n1) 0 else db2 := by
        rw [hD]
        unfold seedIfEmpty
        rw [heq1, heq2]
      rw [if_neg hz] at hrun1
      by_cases hlen : db2.shipments.length = 0
      · rw [if_pos hlen] at hrun1
        have hnil : db2.shipments = [] := List.length_eq_zero.mp hlen
        have hpos : 0 < D.shipments.length := by
          rw [hrun1]
          exact seedLoop_cons_length_pos g1 db2 _ _ 0 hnil
        rw [if_neg (Nat.pos_iff_ne_zero.mp hpos)]
      · rw [if_neg hlen] at hrun1
        rw [if_neg (by rw [hrun1]; exact hlen)]
  · rfl

lemma seedIfEmpty_unique (g : Nat → String) (now : Nat) (db2 : DB)
    (h : trackingUnique db2.shipments) :
    trackingUnique (seedIfEmpty g now db2).shipments := by
  unfold seedIfEmpty
  split
  · split
    · exact h
    · split
      · exact seedLoop_unique g _ db2 0 h
      · exact h
  · exact h

lemma find?_map_setStatus (l : List ShipmentRow) (tid ns : String) :
    (l.map (setStatusRow tid ns)).find? (fun s => s.tracking_id == tid)
      = (l.find? (fun s => s.tracking_id == tid)).map (setStatusRow tid ns) := by
  rw [List.find?_map]
  have hp : ((fun s : ShipmentRow => s.tracking_id == tid) ∘ setStatusRow tid ns)
      = (fun s : ShipmentRow => s.tracking_id == tid) := by
    funext s
    simp only [Function.comp_apply, setStatusRow_tracking]
  rw [hp]

lemma addShipment_ok (db : DB) (sessionUserId : Nat)
    (sender receiver origin dest status uuidStr items : String)
    (created qty : Nat) (cost : Rat) (fails : Bool) (tid : String)
    (h : (addShipment db sessionUserId sender receiver origin dest status uuidStr
            created items qty cost fails).1 = AddResult.ok tid) :
    tid = genTrackingId uuidStr ∧
    ¬trackingExists db.shipments (genTrackingId uuidStr) = true ∧
    (addShipment db sessionUserId sender receiver origin dest status uuidStr
        created items qty cost fails).2 =
      insertOrder
        { db with
            nextShipmentId := db.nextShipmentId + 1,
            shipments := db.shipments ++
              [⟨db.nextShipmentId, sessionUserId, sender, receiver, origin, dest,
                status, genTrackingId uuidStr, created⟩] }
        db.nextShipmentId items qty cost := by
  unfold addShipment at h ⊢
  by_cases hempty : sender = "" ∨ receiver = "" ∨ origin = "" ∨ dest = "" ∨ items = ""
  · rw [if_pos hempty] at h
    exact absurd h (by simp)
  · rw [if_neg hempty] at h ⊢
    dsimp only at h ⊢
    by_cases hex : trackingExists db.shipments (genTrackingId uuidStr) = true
    · rw [insertShipment_none db sessionUserId sender receiver origin dest status _
        created hex] at h
      exact absurd h (by simp)
    · rw [insertShipment_some db sessionUserId sender receiver origin dest status _
        created hex] at h ⊢
      cases fails with
      | true => exact absurd h (by simp)
      | false =>
          refine ⟨?_, hex, rfl⟩
          simpa using h.symm

/-! ## Claims -/

/-- C1: for every successful shipment creation with supplied sender,
receiver, origin, destination and status, a subsequent lookup by the
returned tracking identifier yields a row whose fields equal the
supplied values exactly (round-trip law). -/
theorem c1_create_then_find_roundtrip (db : DB) (sessionUserId : Nat)
    (sender receiver origin dest status uuidStr items : String)
    (created qty : Nat) (cost : Rat) (fails : Bool) (tid : String)
    (h : (addShipment db sessionUserId sender receiver origin dest status uuidStr
            created items qty cost fails).1 = AddResult.ok tid) :
    ∃ r o,
      find_by_tracking_id (addShipment db sessionUserId sender receiver origin dest
          status uuidStr created items qty cost fails).2 tid = some (r, o) ∧
      r.sender_name = sender ∧ r.receiver_name = receiver ∧ r.origin = origin ∧
      r.destination = dest ∧ r.status = status ∧
      r.user_id = sessionUserId ∧ r.tracking_id = tid := by
  obtain ⟨htid, hex, hdb⟩ := addShipment_ok db sessionUserId sender receiver origin dest
    status uuidStr items created qty cost fails tid h
  subst htid
  rw [hdb]
  refine ⟨⟨db.nextShipmentId, sessionUserId, sender, receiver, origin, dest, status,
    genTrackingId uuidStr, created⟩,
    (db.orders ++ [(⟨db.nextOrderId, db.nextShipmentId, items, qty, cost⟩ : OrderRow)]).find?
      (fun o => o.shipment_id == db.nextShipmentId),
    ?_, rfl, rfl, rfl, rfl, rfl, rfl, rfl⟩
  unfold find_by_tracking_id
  have hnone : db.shipments.find?
      (fun s => s.tracking_id == genTrackingId uuidStr) = none := by
    rw [List.find?_eq_none]
    intro x hx hpx
    exact hex (List.any_eq_true.mpr ⟨x, hx, hpx⟩)
  rw [show (insertOrder
      { db with
          nextShipmentId := db.nextShipmentId + 1,
          shipments := db.shipments ++
            [⟨db.nextShipmentId, sessionUserId, sender, receiver, origin, dest,
              status, genTrackingId uuidStr, created⟩] }
      db.nextShipmentId items qty cost).shipments
    = db.shipments ++
        [⟨db.nextShipmentId, sessionUserId, sender, receiver, origin, dest,
          status, genTrackingId uuidStr, created⟩] from rfl]
  rw [List.find?_append, hnone, Option.none_or]
  rw [show ([(⟨db.nextShipmentId, sessionUserId, sender, receiver, origin, dest,
      status, genTrackingId uuidStr, created⟩ : ShipmentRow)].find?
        (fun s => s.tracking_id == genTrackingId uuidStr))
    = some ⟨db.nextShipmentId, sessionUserId, sender, receiver, origin, dest,
        status, genTrackingId uuidStr, created⟩ from by simp]
  rfl

/-- C1 witness: a concrete creation on `dbC1` followed by the lookup. -/
theorem c1_witness :
    ∃ r o,
      find_by_tracking_id (addShipment dbC1 2 "Al" "Bo" "SF" "CHI" "In Transit" uuidC1
          6 "Toys" 3 45 false).2 (genTrackingId uuidC1) = some (r, o) ∧
      r.sender_name = "Al" ∧ r.receiver_name = "Bo" ∧ r.origin = "SF" ∧
      r.destination = "CHI" ∧ r.status = "In Transit" ∧
      r.user_id = 2 ∧ r.tracking_id = genTrackingId uuidC1 :=
  c1_create_then_find_roundtrip dbC1 2 "Al" "Bo" "SF" "CHI" "In Transit" uuidC1 "Toys"
    6 3 45 false (genTrackingId uuidC1) (by decide)

/-- C2: tracking-id uniqueness across the store is an invariant of every
store-mutating operation (the `UNIQUE` constraint on
`shipments.tracking_id` rejects a colliding insert), and every
server-generated tracking identifier — `str(uuid.uuid4()).replace('-',
'')[:8].upper()` — is an 8-character token made only of uppercase hex
characters (digits and `A`-`F`, so no lowercase letters). -/
theorem c2_tracking_unique_and_format :
    (∀ (db : DB) (sessionUserId : Nat)
       (sender receiver origin dest status uuidStr items : String)
       (created qty : Nat) (cost : Rat) (fails : Bool),
       trackingUnique db.shipments →
       trackingUnique (addShipment db sessionUserId sender receiver origin dest status
           uuidStr created items qty cost fails).2.shipments) ∧
    (∀ (db : DB) (tid ns : String), trackingUnique db.shipments →
       trackingUnique (update_status db tid ns).2.shipments) ∧
    (∀ (hash : String → String) (g : Nat → String) (now : Nat) (db : DB),
       trackingUnique db.shipments → trackingUnique (init_db hash g now db).shipments) ∧
    (∀ u : String, uuidShaped u →
       (genTrackingId u).length = 8 ∧ ∀ c ∈ (genTrackingId u).toList, c ∈ hexUpper) := by
  refine ⟨?_, ?_, ?_, ?_⟩
  · intro db sessionUserId sender receiver origin dest status uuidStr items created qty
      cost fails hU
    unfold addShipment
    by_cases hempty : sender = "" ∨ receiver = "" ∨ origin = "" ∨ dest = "" ∨ items = ""
    · rw [if_pos hempty]
      exact hU
    · rw [if_neg hempty]
      dsimp only
      by_cases hex : trackingExists db.shipments (genTrackingId uuidStr) = true
      · rw [insertShipment_none db sessionUserId sender receiver origin dest status _
          created hex]
        exact hU
      · rw [insertShipment_some db sessionUserId sender receiver origin dest status _
          created hex]
        cases fails with
        | true => exact hU
        | false =>
            show trackingUnique (insertOrder _ _ items qty cost).shipments
            rw [insertOrder_shipments]
            exact trackingUnique_append db.shipments _ hU hex
  · intro db tid ns hU
    unfold update_status
    cases hf : db.shipments.find? (fun s => s.tracking_id == tid) with
    | none => exact hU
    | some s =>
        dsimp only
        by_cases hst : ns = s.status
        · rw [if_pos hst]
          exact hU
        · rw [if_neg hst]
          exact trackingUnique_map_setStatus db.shipments tid ns hU
  · intro hash g now db hU
    unfold init_db
    apply seedIfEmpty_unique
    rw [insertOrIgnoreUser_shipments, insertOrIgnoreUser_shipments]
    exact hU
  · intro u hu
    exact ⟨genTrackingId_length u hu, genTrackingId_chars u hu⟩

/-- C2 witness: a concrete insert on `dbC2` keeps the invariant, and the
token generated from `uuidC2` has the stated shape. -/
theorem c2_witness :
    trackingUnique (addShipment dbC2 1 "A" "B" "NYC" "LA" "Pending" uuidC2
        5 "Toys" 2 30 false).2.shipments ∧
    (genTrackingId uuidC2).length = 8 ∧
    (∀ c ∈ (genTrackingId uuidC2).toList, c ∈ hexUpper) := by
  refine ⟨?_, ?_⟩
  · exact c2_tracking_unique_and_format.1 dbC2 1 "A" "B" "NYC" "LA" "Pending" uuidC2
      "Toys" 5 2 30 false (by decide)
  · exact c2_tracking_unique_and_format.2.2.2 uuidC2 (by decide)

/-- C3: authenticating with the correct username/secret pair returns the
role the code attaches to the account (`is_admin`, computed from the
immutable username exactly as it would have been at creation), and
authenticating with an incorrect secret — one whose digest differs from
the stored digest — returns the invalid outcome; prior failed attempts
leave the store untouched, so the result is independent of how many of
them occurred (no lockout). -/
theorem c3_authenticate_role (hash : String → String) (db : DB) (u : UserRow)
    (prior : List (String × String))
    (hu : u ∈ db.users)
    (huniq : ∀ v ∈ db.users, v.username = u.username → v = u)
    (hname : ¬u.username = "") :
    runLogins hash db prior = db ∧
    (∀ secret, ¬secret = "" → hash secret = u.password →
      (handle_login hash (runLogins hash db prior) u.username secret).1
        = LoginResult.success u.id u.username (accountRole u)) ∧
    (∀ secret, ¬secret = "" → ¬hash secret = u.password →
      (handle_login hash (runLogins hash db prior) u.username secret).1
        = LoginResult.invalid) := by
  refine ⟨runLogins_eq hash db prior, ?_, ?_⟩
  · intro secret hs hps
    rw [runLogins_eq]
    unfold handle_login
    rw [if_neg (by push_neg; exact ⟨hname, hs⟩)]
    rw [find?_user_hit db.users u (hash secret) hu huniq hps]
    rfl
  · intro secret hs hps
    rw [runLogins_eq]
    unfold handle_login
    rw [if_neg (by push_neg; exact ⟨hname, hs⟩)]
    rw [find?_user_miss db.users u (hash secret) huniq hps]

/-- C3 witness: on `dbC3`, after two failed attempts, "alice"/"pw123"
still authenticates with the non-admin role and a wrong secret is
rejected. -/
theorem c3_witness :
    (handle_login (fun s => s)
        (runLogins (fun s => s) dbC3 [("alice", "bad1"), ("alice", "bad2")])
        "alice" "pw123").1 = LoginResult.success 2 "alice" false ∧
    (handle_login (fun s => s)
        (runLogins (fun s => s) dbC3 [("alice", "bad1"), ("alice", "bad2")])
        "alice" "wrong").1 = LoginResult.invalid := by
  have h := c3_authenticate_role (fun s => s) dbC3 ⟨2, "alice", "pw123"⟩
    [("alice", "bad1"), ("alice", "bad2")] (by decide) (by decide) (by decide)
  exact ⟨h.2.1 "pw123" (by decide) (by decide), h.2.2 "wrong" (by decide) (by decide)⟩

/-- C4 counterexample: on `dbC4` the generated tracking id
(`genTrackingId uuidC4 = "AAAAAAAA"`) collides with the stored shipment,
and the Add Shipment flow returns the surfaced storage error with the
store unchanged — it neither regenerates the identifier nor re-inserts,
contradicting the claimed internal retry. -/
theorem c4_counterexample :
    trackingExists dbC4.shipments (genTrackingId uuidC4) = true ∧
    addShipment dbC4 1 "S2" "R2" "O2" "D2" "Pending" uuidC4 3 "Itm" 1 5 false
      = (AddResult.storageError, dbC4) := by
  constructor
  · decide
  · decide

/-- C4 (amended): when the shipment insert raises a uniqueness conflict
on the tracking identifier, the Add Shipment flow does not retry or
regenerate — the `except` branch surfaces a storage error to the caller
and rolls back, leaving the store unchanged. -/
theorem c4_collision_surfaced (db : DB) (sessionUserId : Nat)
    (sender receiver origin dest status uuidStr items : String)
    (created qty : Nat) (cost : Rat) (fails : Bool)
    (hfields : ¬(sender = "" ∨ receiver = "" ∨ origin = "" ∨ dest = "" ∨ items = ""))
    (hcol : trackingExists db.shipments (genTrackingId uuidStr) = true) :
    addShipment db sessionUserId sender receiver origin dest status uuidStr created
      items qty cost fails = (AddResult.storageError, db) := by
  unfold addShipment
  rw [if_neg hfields]
  dsimp only
  rw [insertShipment_none db sessionUserId sender receiver origin dest status _
    created hcol]

/-- C4 witness: the amended behaviour at a second concrete input. -/
theorem c4_witness :
    addShipment dbC4 1 "S3" "R3" "O3" "D3" "Pending" uuidC4 4 "Itm2" 2 7 true
      = (AddResult.storageError, dbC4) :=
  c4_collision_surfaced dbC4 1 "S3" "R3" "O3" "D3" "Pending" uuidC4 "Itm2" 4 2 7 true
    (by decide) (by decide)

/-- C5 counterexample: on `dbC5` a non-admin session (user id 2) on the
View Orders page with the default `'All'` filter receives a shipment row
owned by user id 1, so read operations are not restricted to the
session's own shipments. -/
theorem c5_counterexample :
    ∃ r ∈ viewOrders dbC5 2 false "All" "All", ¬r.1.user_id = 2 := by
  decide

/-- C5 (amended): ownership scoping holds only where the code filters by
the session's account: the User Profile page query returns only the
session's own shipments, and View Orders restricts a non-admin session
to its own rows only when a non-`'All'` user filter is selected; with
the `'All'` filter every authenticated session sees all shipments. -/
theorem c5_ownership_scope (db : DB) (uid : Nat) (sf uf : String)
    (huf : ¬uf = "All") :
    (∀ r ∈ get_user_shipments_df db uid, r.1.user_id = uid) ∧
    (∀ r ∈ viewOrders db uid false sf uf, r.1.user_id = uid) := by
  constructor
  · intro r hr
    unfold get_user_shipments_df leftJoinOrders at hr
    rw [List.mem_flatMap] at hr
    obtain ⟨s, hs, hrs⟩ := hr
    have hfst : r.1 = s := by
      dsimp only at hrs
      by_cases he : (db.orders.filter (fun o => o.shipment_id == s.id)).isEmpty = true
      · rw [if_pos he] at hrs
        rw [List.mem_singleton] at hrs
        rw [hrs]
      · rw [if_neg he] at hrs
        obtain ⟨o, ho, rfl⟩ := List.mem_map.mp hrs
        rfl
    rw [hfst]
    exact beq_iff_eq.mp (List.mem_filter.mp hs).2
  · intro r hr
    unfold viewOrders at hr
    dsimp only at hr
    rw [if_neg (by simpa using huf)] at hr
    rw [if_neg (by simp)] at hr
    exact beq_iff_eq.mp (List.mem_filter.mp hr).2

/-- C5 witness: the amended scoping evaluated on `dbC5` for the
non-admin session (user id 2) with its own-username filter. -/
theorem c5_witness :
    ((viewOrders dbC5 2 false "All" "user").all (fun r => r.1.user_id == 2)) = true ∧
    ((get_user_shipments_df dbC5 2).all (fun r => r.1.user_id == 2)) = true := by
  have h := c5_ownership_scope dbC5 2 "All" "user" (by decide)
  constructor
  · rw [List.all_eq_true]
    intro r hr
    exact beq_iff_eq.mpr (h.2 r hr)
  · rw [List.all_eq_true]
    intro r hr
    exact beq_iff_eq.mpr (h.1 r hr)

/-- C6: the status-update flow reports the distinguishable "Shipment not
found" outcome exactly when no shipment with the given tracking id
exists; when one exists the outcome is a non-error result — the success
banner after the `UPDATE`, or the "No change needed" no-op when the
selected status already equals the current one. -/
theorem c6_update_status_not_found (db : DB) (tid ns : String) :
    ((update_status db tid ns).1 = UpdateResult.notFound ↔
      trackingExists db.shipments tid = false) ∧
    (trackingExists db.shipments tid = true →
      (update_status db tid ns).1 = UpdateResult.updated ∨
      (update_status db tid ns).1 = UpdateResult.noChange) := by
  unfold update_status
  cases hf : db.shipments.find? (fun s => s.tracking_id == tid) with
  | none =>
      dsimp only
      have hfalse : trackingExists db.shipments tid = false := by
        rw [List.find?_eq_none] at hf
        rw [Bool.eq_false_iff]
        intro hany
        obtain ⟨x, hx, hpx⟩ := List.any_eq_true.mp hany
        exact hf x hx hpx
      constructor
      · exact ⟨fun _ => hfalse, fun _ => rfl⟩
      · intro htr
        rw [htr] at hfalse
        cases hfalse
  | some s =>
      dsimp only
      have hp : (s.tracking_id == tid) = true :=
        @List.find?_some ShipmentRow (fun v => v.tracking_id == tid) s db.shipments hf
      have htrue : trackingExists db.shipments tid = true :=
        List.any_eq_true.mpr ⟨s, List.mem_of_find?_eq_some hf, hp⟩
      constructor
      · constructor
        · intro h1
          by_cases hst : ns = s.status
          · rw [if_pos hst] at h1
            cases h1
          · rw [if_neg hst] at h1
            cases h1
        · intro hfalse
          rw [htrue] at hfalse
          cases hfalse
      · intro _
        by_cases hst : ns = s.status
        · right
          rw [if_pos hst]
        · left
          rw [if_neg hst]

/-- C6 witness: on `dbC6`, a missing tracking id reports not-found and
an existing one reports a non-error outcome. -/
theorem c6_witness :
    (update_status dbC6 "MISSING1" "Delivered").1 = UpdateResult.notFound ∧
    ((update_status dbC6 "TRACK001" "Delivered").1 = UpdateResult.updated ∨
     (update_status dbC6 "TRACK001" "Delivered").1 = UpdateResult.noChange) := by
  constructor
  · exact (c6_update_status_not_found dbC6 "MISSING1" "Delivered").1.mpr (by decide)
  · exact (c6_update_status_not_found dbC6 "TRACK001" "Delivered").2 (by decide)

/-- C7: running the seed operation twice in succession leaves exactly
the same store state — hence the same row counts in every table — as
running it once (the `INSERT OR IGNORE` for the default users is a no-op
on a re-run and the sample pass is guarded by the shipment count), and
an individual sample insert failing on a uniqueness conflict is skipped
(`pass` on `sqlite3.IntegrityError`) while the rest of the seed pass
continues. -/
theorem c7_seed_idempotent_and_skip (hash : String → String) (g1 g2 : Nat → String)
    (n1 n2 : Nat) (db : DB) :
    init_db hash g2 n2 (init_db hash g1 n1 db) = init_db hash g1 n1 db ∧
    (∀ (g : Nat → String) (d : DB) (row : SampleRow) (rest : List SampleRow) (i : Nat),
      trackingExists d.shipments (genTrackingId (g i)) = true →
      seedLoop g d (row :: rest) i = seedLoop g d rest (i + 1)) := by
  constructor
  · set db2 := insertOrIgnoreUser (insertOrIgnoreUser db "admin" (hash "admin"))
      "user" (hash "user") with hdb2
    have hD : init_db hash g1 n1 db = seedIfEmpty g1 n1 db2 := rfl
    rw [hD]
    have hA : userExists (seedIfEmpty g1 n1 db2).users "admin" = true := by
      rw [seedIfEmpty_users]
      exact userExists_insertOrIgnoreUser_mono _ _ _ _
        (userExists_insertOrIgnoreUser_self db "admin" _)
    have hU : userExists (seedIfEmpty g1 n1 db2).users "user" = true := by
      rw [seedIfEmpty_users]
      exact userExists_insertOrIgnoreUser_self _ "user" _
    rw [init_db_eval hash g2 n2 _ hA hU]
    exact seedIfEmpty_idem g1 g2 n1 n2 db2
  · intro g d row rest i hcol
    obtain ⟨uid, sender, receiver, origin, dest, status, created⟩ := row
    rw [seedLoop, insertShipment_none d uid sender receiver origin dest status _
      created hcol]

/-- C7 witness: seeding the empty store `dbC7` twice equals seeding it
once, and on `dbC7col` the colliding first sample row is skipped while
the loop continues. -/
theorem c7_witness :
    init_db (fun s => s) (fun _ => uuidC4) 9 (init_db (fun s => s) (fun _ => uuidC4) 9 dbC7)
      = init_db (fun s => s) (fun _ => uuidC4) 9 dbC7 ∧
    seedLoop (fun _ => uuidC4) dbC7col [(1, "A", "B", "C", "D", "Pending", 0)] 0
      = seedLoop (fun _ => uuidC4) dbC7col [] 1 := by
  have h := c7_seed_idempotent_and_skip (fun s => s) (fun _ => uuidC4) (fun _ => uuidC4)
    9 9 dbC7
  exact ⟨h.1, h.2 (fun _ => uuidC4) dbC7col (1, "A", "B", "C", "D", "Pending", 0) []
    0 (by decide)⟩

/-- C8: for every existing shipment and every status value, performing
the status-update flow twice with the same status yields the same store
state as performing it once — the second run finds the row already
carrying the new status and takes the "No change needed" branch. -/
theorem c8_update_status_idempotent (db : DB) (tid ns : String)
    (h : trackingExists db.shipments tid = true) :
    (update_status (update_status db tid ns).2 tid ns).2 = (update_status db tid ns).2 := by
  obtain ⟨s, hs⟩ : ∃ s, db.shipments.find? (fun v => v.tracking_id == tid) = some s := by
    have h2 : (db.shipments.find? (fun v => v.tracking_id == tid)).isSome := by
      rw [List.find?_isSome]
      obtain ⟨x, hx, hpx⟩ := List.any_eq_true.mp h
      exact ⟨x, hx, hpx⟩
    exact Option.isSome_iff_exists.mp h2
  have hps : (s.tracking_id == tid) = true :=
    @List.find?_some ShipmentRow (fun v => v.tracking_id == tid) s db.shipments hs
  have h1 : update_status db tid ns =
      if ns = s.status then (UpdateResult.noChange, db)
      else (UpdateResult.updated,
        { db with shipments := db.shipments.map (setStatusRow tid ns) }) := by
    unfold update_status
    rw [hs]
  by_cases hst : ns = s.status
  · rw [h1, if_pos hst]
    show (update_status db tid ns).2 = db
    rw [h1, if_pos hst]
  · rw [h1, if_neg hst]
    unfold update_status
    rw [show ({ db with shipments := db.shipments.map (setStatusRow tid ns) } : DB).shipments
      = db.shipments.map (setStatusRow tid ns) from rfl]
    rw [find?_map_setStatus, hs]
    rw [show (some s).map (setStatusRow tid ns) = some (setStatusRow tid ns s) from rfl]
    rw [show setStatusRow tid ns s = { s with status := ns } from by
      unfold setStatusRow; rw [if_pos hps]]
    dsimp only
    rw [if_pos rfl]

/-- C8 witness: the idempotence evaluated on `dbC8`. -/
theorem c8_witness :
    (update_status (update_status dbC8 "TRACK777" "Delivered").2 "TRACK777" "Delivered").2
      = (update_status dbC8 "TRACK777" "Delivered").2 :=
  c8_update_status_idempotent dbC8 "TRACK777" "Delivered" (by decide)

/-- C9 counterexample: on the empty store `dbC9` the Dashboard page
renders the "No shipments data available" info view, not the four
zero-valued metric widgets the claim describes. -/
theorem c9_counterexample :
    dashboard dbC9 = DashboardView.noData ∧
    ¬dashboard dbC9 = DashboardView.metrics 0 0 0 0 := by
  decide

/-- C9 (amended): on an empty store the Dashboard signals no error — it
short-circuits to the informational no-data view instead of rendering
zero-valued metrics — and the status-count aggregation itself evaluates
to zero for every status on the empty store. -/
theorem c9_dashboard_empty (db : DB) (h : db.shipments = []) :
    dashboard db = DashboardView.noData ∧
    ¬dashboard db = DashboardView.errorView ∧
    ∀ s : String, countStatus db s = 0 := by
  refine ⟨?_, ?_, ?_⟩
  · unfold dashboard get_all_shipments
    rw [h]
    rfl
  · unfold dashboard get_all_shipments
    rw [h]
    intro hcontra
    cases hcontra
  · intro s
    unfold countStatus get_all_shipments
    rw [h]
    rfl

/-- C9 witness: the amended behaviour on the concrete empty store. -/
theorem c9_witness :
    dashboard dbC9 ≠ DashboardView.errorView ∧ countStatus dbC9 "Pending" = 0 := by
  have h := c9_dashboard_empty dbC9 (by decide)
  exact ⟨h.2.1, h.2.2 "Pending"⟩

/-- C10: in the Add Shipment flow the shipment insert and its linked
order insert commit together — when the order insert raises before
`conn.commit()`, the `except` branch runs `conn.rollback()` and the
store is unchanged, so no shipment row and no order row persists and no
success outcome is produced. -/
theorem c10_rollback_on_error (db : DB) (sessionUserId : Nat)
    (sender receiver origin dest status uuidStr items : String)
    (created qty : Nat) (cost : Rat) :
    (addShipment db sessionUserId sender receiver origin dest status uuidStr created
        items qty cost true).2 = db ∧
    ∀ t, ¬(addShipment db sessionUserId sender receiver origin dest status uuidStr
        created items qty cost true).1 = AddResult.ok t := by
  unfold addShipment
  by_cases hempty : sender = "" ∨ receiver = "" ∨ origin = "" ∨ dest = "" ∨ items = ""
  · rw [if_pos hempty]
    exact ⟨rfl, fun t h => by cases h⟩
  · rw [if_neg hempty]
    dsimp only
    by_cases hex : trackingExists db.shipments (genTrackingId uuidStr) = true
    · rw [insertShipment_none db sessionUserId sender receiver origin dest status _
        created hex]
      exact ⟨rfl, fun t h => by cases h⟩
    · rw [insertShipment_some db sessionUserId sender receiver origin dest status _
        created hex]
      exact ⟨rfl, fun t h => by simp at h⟩

/-- C10 witness: a concrete failing order insert on `dbC1` leaves the
store unchanged and produces no success outcome. -/
theorem c10_witness :
    (addShipment dbC1 1 "A" "B" "C" "D" "Pending" uuidC1 2 "Itm" 1 3 true).2 = dbC1 ∧
    ¬(addShipment dbC1 1 "A" "B" "C" "D" "Pending" uuidC1 2 "Itm" 1 3 true).1
      = AddResult.ok (genTrackingId uuidC1) := by
  have h := c10_rollback_on_error dbC1 1 "A" "B" "C" "D" "Pending" uuidC1 "Itm" 2 1 3
  exact ⟨h.1, h.2 (genTrackingId uuidC1)⟩

end TrackSwift
